import Mathlib

/-!
Shallow embedding of the scancmdr protocol-synthesis engine
(src/scancmdr.h, src/unnamed/part_001) in Lean 4.

Modelling conventions:
* C `uint32_t` arithmetic is `Nat` with an explicit reduction `% 2^32`
  (`m32`); C `int`/`int64_t` values are `Int` (signed overflow is UB in C
  and never exercised by the claims).
* The doubly linked `ScanProt` list is a `List Cmd` in append order; the
  `append*` functions of the source become pure functions returning the
  grown list.  Allocation failure (the only path returning `-1` in the
  source) is outside the embedding, so the modelled status code is the
  `return 0` path.
* `convertCoord` mixes `double _Complex` trigonometry with integer
  truncation; the pattern generators therefore take the already converted
  galvo coordinates (and, for `buildGrid`, the rotated step vectors) as
  explicit integer parameters.  No claim below depends on the numeric
  value of a converted coordinate.
* `double` arithmetic in `rotateCoord` and `calcScaling` is modelled by
  exact rationals, with `cos`/`sin` of the rotation angle passed as
  rational values; C `round` (half away from zero) and Mathlib `round`
  (half up) agree away from exact halves, and no input used below hits a
  half.
-/

namespace Scancmdr

/- Constants from scancmdr.h (preprocessor and channel enums). -/

def U32 : Nat := 4294967296

/-- Reduction of C `uint32_t` arithmetic. -/
def m32 (n : Nat) : Nat := n % U32

/-- Conversion of a C `int` operand into `uint32_t` (usual arithmetic
conversions applied in mixed `int`/`uint32_t` expressions). -/
def i2u32 (z : Int) : Nat := (z % (4294967296 : Int)).toNat

def CYCLES_PER_MS : Nat := 100
def TRIG_LEN : Nat := 10
def TIME_OFFSET : Nat := 10
def PROT_PERIOD : Nat := 50

def START : Char := 'S'
def END : Char := 'E'

/-- Channel constants, scancmdr.h lines 264-268: `enum { X = 4, Y = 3, TRIG = 7, LOOP = 9 }`. -/
def X : Int := 4
def Y : Int := 3
def TRIG : Int := 7
def LOOP : Int := 9

/-- Trigger-out configurations, scancmdr.h `enum TrigCfg`. -/
def TL_DL : Int := 0
def TH_DL : Int := 2
def TL_DH : Int := 4
def TH_DH : Int := 6

/-- Trigger-in edges, scancmdr.h `enum TrigIn`. -/
def RISING : Int := 1
def FALLING : Int := 2

/-- `enum Trigger` of scancmdr.h. -/
inductive Trigger
  | T_NONE
  | T_IN
  | T_OUT
deriving DecidableEq

/-- A protocol command line (`struct CmdLine` minus the list pointers):
control char, scan char, cycle (`uint32_t`), channel (`int`), value
(`int64_t`). -/
structure Cmd where
  DSPCmd : Char
  ScanCmd : Char
  Cycle : Nat
  Channel : Int
  Value : Int
deriving DecidableEq

/- The append functions of scancmdr.c.  Each grows the protocol by exactly
one command at the tail (reassignPointers). -/

/-- `appendMove`, part_001 lines 914-930. -/
def appendMove (pProtocol : List Cmd) (channel : Int) (cycle : Nat) (position : Int) : List Cmd :=
  pProtocol ++ [⟨'A', 'V', cycle, channel, position⟩]

/-- `appendLoop`, part_001 lines 932-959.  The default branch of the C
switch leaves the calloc-zeroed scan char and value in place. -/
def appendLoop (pProtocol : List Cmd) (StartOrEnd : Char) (cycle : Nat) (repetitions : Int) : List Cmd :=
  let pCmdLine : Cmd :=
    if StartOrEnd = 'S' then ⟨'A', 'S', cycle, LOOP, repetitions⟩
    else if StartOrEnd = 'E' then ⟨'A', 'E', cycle, LOOP, repetitions⟩
    else ⟨'A', Char.ofNat 0, cycle, LOOP, 0⟩
  pProtocol ++ [pCmdLine]

/-- `appendTrigOut`, part_001 lines 961-977. -/
def appendTrigOut (pProtocol : List Cmd) (cycle : Nat) (trigger : Int) : List Cmd :=
  pProtocol ++ [⟨'A', 'V', cycle, TRIG, trigger⟩]

/-- `appendRel`, part_001 lines 1015-1031. -/
def appendRel (pProtocol : List Cmd) (cycle : Nat) (channel : Int) (deltaValue : Int) : List Cmd :=
  pProtocol ++ [⟨'A', 'R', cycle, channel, deltaValue⟩]

/-- `appendTrigIn`, part_001 lines 1051-1076.  Returns the grown protocol
together with the C status code of the non-allocation-failure path. -/
def appendTrigIn (pProtocol : List Cmd) (cycle : Nat) (risingFalling : Int) : List Cmd × Int :=
  let scanCmd : Char :=
    if risingFalling = 1 then 'U'
    else if risingFalling = 2 then 'D'
    else 'U'
  (pProtocol ++ [⟨'A', scanCmd, cycle, TRIG, 0⟩], 0)

/-- ISI coercion shared by all generators (for example part_001 lines 70-72):
`if (ISI < TimeOn) { ISI = TimeOn; }`. -/
def coerceISI (ISI TimeOn : Nat) : Nat := if ISI < TimeOn then TimeOn else ISI

/-- Millisecond-to-cycle conversion shared by all generators (for example
part_001 lines 82-85): multiplication by `CYCLES_PER_MS` in `uint32_t`. -/
def msToCycles (t : Nat) : Nat := m32 (t * CYCLES_PER_MS)

/-- `buildSpot`, part_001 lines 56-136, with the converted galvo position
passed as the integers `gX`, `gY`. -/
def buildSpot (Baseline TimeOn NumPulses ISI EpisodePeriod Reps : Nat)
    (gX gY : Int) (Trig : Trigger) : List Cmd :=
  let ISI := coerceISI ISI TimeOn
  let EpisodePeriod :=
    if EpisodePeriod < m32 (Baseline + m32 (NumPulses * ISI)) then
      m32 (Baseline + m32 (NumPulses * ISI))
    else EpisodePeriod
  let Baseline := msToCycles Baseline
  let TimeOn := msToCycles TimeOn
  let ISI := msToCycles ISI
  let EpisodePeriod := msToCycles EpisodePeriod
  let Time0 : Nat := 0
  let EndTime := m32 (Time0 + m32 (EpisodePeriod * Reps) + PROT_PERIOD)
  let PulseStart := m32 (Time0 + Baseline)
  let prot := appendMove [] X Time0 gX
  let prot := appendMove prot Y Time0 gY
  let prot := appendLoop prot START Time0 (Reps : Int)
  let prot :=
    match Trig with
    | Trigger.T_NONE => prot
    | Trigger.T_IN => (appendTrigIn prot Time0 RISING).1
    | Trigger.T_OUT =>
        appendTrigOut (appendTrigOut prot Time0 TH_DL) (m32 (Time0 + TRIG_LEN)) TL_DL
  let prot :=
    if NumPulses = 1 then
      appendTrigOut (appendTrigOut prot (m32 (Time0 + Baseline)) TL_DH)
        (m32 (Time0 + Baseline + TimeOn)) TL_DL
    else
      appendLoop
        (appendTrigOut
          (appendTrigOut (appendLoop prot START PulseStart (NumPulses : Int)) PulseStart TL_DH)
          (m32 (PulseStart + TimeOn)) TL_DL)
        END (m32 (PulseStart + ISI)) (NumPulses : Int)
  appendLoop prot END EndTime (Reps : Int)

/-- `buildGrid`, part_001 lines 140-280.  The grid dimensions keep their C
`int` type; the converted start position (`gStartX/Y`), the scaled spacing
(`gSpacingX/Y`, rotation-free branch) and the rotated step vectors
(`gDelta*`, rotation branch) are passed as the integers the `double`
arithmetic of lines 184-216 produced, and `rotZero` is the line 184/259
test `RotAngle == 0`. -/
def buildGrid (Baseline TimeOn NumPulses ISI Iterations EpisodePeriod Reps : Nat)
    (DimsX DimsY : Int)
    (gStartX gStartY gSpacingX gSpacingY gDeltaX1 gDeltaX2 gDeltaY1 gDeltaY2 : Int)
    (rotZero : Bool) (Trig : Trigger) : List Cmd :=
  let ISI := coerceISI ISI TimeOn
  let EpisodePeriod :=
    if EpisodePeriod < m32 (Baseline + m32 (NumPulses * ISI)) then
      m32 (Baseline + m32 (NumPulses * ISI))
    else EpisodePeriod
  let Baseline := msToCycles Baseline
  let TimeOn := msToCycles TimeOn
  let ISI := msToCycles ISI
  let EpisodePeriod := m32 (msToCycles EpisodePeriod * Iterations)
  let Time0 : Nat := 0
  let EpisodeStart := m32 (Time0 + TIME_OFFSET)
  let PulseStart := m32 (EpisodeStart + Baseline)
  let XMoveTime := m32 (EpisodeStart + EpisodePeriod)
  let YMoveTime := m32 (EpisodeStart + m32 (i2u32 DimsX * EpisodePeriod))
  let EndTime := m32 (EpisodeStart + m32 (i2u32 (DimsX * DimsY) * EpisodePeriod) + PROT_PERIOD)
  let prot := appendLoop [] START Time0 (Reps : Int)
  let prot := appendMove prot X Time0 gStartX
  let prot := appendMove prot Y Time0 gStartY
  let prot := appendLoop prot START EpisodeStart DimsY
  let prot := appendLoop prot START EpisodeStart DimsX
  let prot := if 1 < Iterations then appendLoop prot START EpisodeStart (Iterations : Int) else prot
  let prot :=
    match Trig with
    | Trigger.T_NONE => prot
    | Trigger.T_IN => (appendTrigIn prot EpisodeStart RISING).1
    | Trigger.T_OUT =>
        appendTrigOut (appendTrigOut prot EpisodeStart TH_DL) (m32 (EpisodeStart + TRIG_LEN)) TL_DL
  let prot :=
    if NumPulses = 1 then
      appendTrigOut (appendTrigOut prot PulseStart TL_DH) (m32 (PulseStart + TimeOn)) TL_DL
    else
      appendLoop
        (appendTrigOut
          (appendTrigOut (appendLoop prot START PulseStart (NumPulses : Int)) PulseStart TL_DH)
          (m32 (PulseStart + TimeOn)) TL_DL)
        END (m32 (PulseStart + ISI)) (NumPulses : Int)
  let prot :=
    if 1 < Iterations then appendLoop prot END (m32 (EpisodeStart + EpisodePeriod)) (Iterations : Int)
    else prot
  let prot :=
    if rotZero then
      appendLoop
        (appendRel
          (appendRel (appendLoop (appendRel prot XMoveTime X (-1 * gSpacingX)) END XMoveTime DimsX)
            YMoveTime Y gSpacingY)
          YMoveTime X (gSpacingX * DimsX))
        END YMoveTime DimsY
    else
      appendLoop
        (appendRel
          (appendRel
            (appendRel
              (appendRel
                (appendLoop
                  (appendRel (appendRel prot XMoveTime X (-1 * gDeltaX1)) XMoveTime Y (-1 * gDeltaX2))
                  END XMoveTime DimsX)
                YMoveTime X (-1 * gDeltaY1))
              YMoveTime Y gDeltaY2)
            YMoveTime X (gDeltaX1 * DimsX))
          YMoveTime Y (gDeltaX2 * DimsX))
        END YMoveTime DimsY
  appendLoop prot END EndTime (Reps : Int)

/-- The per-coordinate body of `buildTarget`'s `for` loop, part_001 lines
338-374 (and, verbatim in the source, of `buildPattern`'s loop, lines
593-629).  `k` is the loop index, `g` the converted galvo coordinate. -/
def targetEpisode (Baseline TimeOn NumPulses ISI Iterations EpisodePeriod EpisodeStart : Nat)
    (Trig : Trigger) (pr : List Cmd) (k : Nat) (g : Int × Int) : List Cmd :=
  let NextEpisode := m32 (EpisodeStart + m32 (k * EpisodePeriod))
  let NextPulse := m32 (NextEpisode + Baseline)
  let pr := appendMove pr X NextEpisode g.1
  let pr := appendMove pr Y NextEpisode g.2
  let pr := if 1 < Iterations then appendLoop pr START NextEpisode (Iterations : Int) else pr
  let pr :=
    match Trig with
    | Trigger.T_NONE => pr
    | Trigger.T_IN => (appendTrigIn pr NextEpisode RISING).1
    | Trigger.T_OUT =>
        appendTrigOut (appendTrigOut pr NextEpisode TH_DL) (m32 (NextEpisode + TRIG_LEN)) TL_DL
  let pr :=
    if NumPulses = 1 then
      appendTrigOut (appendTrigOut pr NextPulse TL_DH) (m32 (NextPulse + TimeOn)) TL_DL
    else
      appendLoop
        (appendTrigOut
          (appendTrigOut (appendLoop pr START NextPulse (NumPulses : Int)) NextPulse TL_DH)
          (m32 (NextPulse + TimeOn)) TL_DL)
        END (m32 (NextPulse + m32 (NumPulses * ISI))) (NumPulses : Int)
  if 1 < Iterations then appendLoop pr END (m32 (NextEpisode + EpisodePeriod)) (Iterations : Int)
  else pr

/-- `buildTarget`, part_001 lines 284-381.  The coordinate list read by
`getCoords` (rotated and converted to galvo space, lines 316-330) enters
as `gCoordArr`; `NumPoints` is its length. -/
def buildTarget (Baseline TimeOn NumPulses ISI Iterations EpisodePeriod Reps : Nat)
    (gCoordArr : List (Int × Int)) (Trig : Trigger) : List Cmd :=
  let NumPoints := gCoordArr.length
  let ISI := coerceISI ISI TimeOn
  let EpisodePeriod :=
    if EpisodePeriod < m32 (Baseline + m32 (NumPulses * ISI)) then
      m32 (Baseline + m32 (NumPulses * ISI))
    else EpisodePeriod
  let Baseline := msToCycles Baseline
  let TimeOn := msToCycles TimeOn
  let ISI := msToCycles ISI
  let EpisodePeriod := m32 (msToCycles EpisodePeriod * Iterations)
  let Time0 : Nat := 0
  let EpisodeStart := m32 (Time0 + TIME_OFFSET)
  let EndTime := m32 (EpisodePeriod * NumPoints)
  let prot := appendLoop [] START Time0 (Reps : Int)
  let prot := gCoordArr.enum.foldl
    (fun pr kg => targetEpisode Baseline TimeOn NumPulses ISI Iterations EpisodePeriod
      EpisodeStart Trig pr kg.1 kg.2) prot
  appendLoop prot END EndTime (Reps : Int)

/-- `buildRapidGrid`, part_001 lines 385-454, with the converted start
position and scaled spacing (lines 415-418) passed as integers;
`gSpacingX/Y` already carry the source's `-1 *` factor. -/
def buildRapidGrid (Baseline TimeOn ISI EpisodePeriod Reps : Nat) (DimsX DimsY : Int)
    (gStartX gStartY gSpacingX gSpacingY : Int) (Trig : Trigger) : List Cmd :=
  let ISI := coerceISI ISI TimeOn
  let EpisodePeriod :=
    if EpisodePeriod < m32 (Baseline + m32 (i2u32 (DimsX * DimsY) * ISI)) then
      m32 (Baseline + m32 (i2u32 (DimsX * DimsY) * ISI))
    else EpisodePeriod
  let Baseline := msToCycles Baseline
  let TimeOn := msToCycles TimeOn
  let ISI := msToCycles ISI
  let EpisodePeriod := msToCycles EpisodePeriod
  let Time0 : Nat := 0
  let EpisodeStart := m32 (Time0 + TIME_OFFSET)
  let PulseStart := m32 (EpisodeStart + Baseline)
  let XMoveTime := m32 (EpisodeStart + ISI)
  let YMoveTime := m32 (EpisodeStart + m32 (i2u32 DimsX * ISI))
  let EndTime := m32 (EpisodeStart + EpisodePeriod + PROT_PERIOD)
  let prot := appendLoop [] START Time0 (Reps : Int)
  let prot := appendMove prot X Time0 gStartX
  let prot := appendMove prot Y Time0 gStartY
  let prot :=
    match Trig with
    | Trigger.T_NONE => prot
    | Trigger.T_IN => (appendTrigIn prot EpisodeStart RISING).1
    | Trigger.T_OUT =>
        appendTrigOut (appendTrigOut prot EpisodeStart TH_DL) (m32 (EpisodeStart + TRIG_LEN)) TL_DL
  let prot := appendLoop prot START EpisodeStart DimsY
  let prot := appendLoop prot START EpisodeStart DimsX
  let prot := appendTrigOut prot PulseStart TL_DH
  let prot := appendTrigOut prot (m32 (PulseStart + TimeOn)) TL_DL
  let prot := appendRel prot XMoveTime X (-1 * gSpacingX)
  let prot := appendLoop prot END XMoveTime DimsX
  let prot := appendRel prot YMoveTime Y gSpacingY
  let prot := appendRel prot YMoveTime X (gSpacingX * DimsX)
  let prot := appendLoop prot END YMoveTime DimsY
  appendLoop prot END EndTime (Reps : Int)

/-- The per-coordinate body of `buildRapidTarget`'s `for` loop, part_001
lines 520-526. -/
def rapidTargetPoint (TimeOn ISI PulseStart : Nat) (pr : List Cmd) (m : Nat) (g : Int × Int) :
    List Cmd :=
  let NextPulse := m32 (PulseStart + m32 (m * ISI))
  appendTrigOut
    (appendTrigOut (appendMove (appendMove pr X NextPulse g.1) Y NextPulse g.2) NextPulse TL_DH)
    (m32 (NextPulse + TimeOn)) TL_DL

/-- `buildRapidTarget`, part_001 lines 458-532, with the converted
coordinate list passed as `gCoordArr`. -/
def buildRapidTarget (Baseline TimeOn ISI EpisodePeriod Reps : Nat)
    (gCoordArr : List (Int × Int)) (Trig : Trigger) : List Cmd :=
  let NumPoints := gCoordArr.length
  let ISI := coerceISI ISI TimeOn
  let EpisodePeriod :=
    if EpisodePeriod < m32 (Baseline + m32 (NumPoints * ISI)) then
      m32 (Baseline + m32 (NumPoints * ISI))
    else EpisodePeriod
  let Baseline := msToCycles Baseline
  let TimeOn := msToCycles TimeOn
  let ISI := msToCycles ISI
  let EpisodePeriod := msToCycles EpisodePeriod
  let Time0 : Nat := 0
  let EpisodeStart := m32 (Time0 + TIME_OFFSET)
  let PulseStart := m32 (EpisodeStart + Baseline)
  let EndTime := EpisodePeriod
  let prot := appendLoop [] START Time0 (Reps : Int)
  let prot :=
    match Trig with
    | Trigger.T_NONE => prot
    | Trigger.T_IN => (appendTrigIn prot EpisodeStart RISING).1
    | Trigger.T_OUT =>
        appendTrigOut (appendTrigOut prot EpisodeStart TH_DL) (m32 (EpisodeStart + TRIG_LEN)) TL_DL
  let prot := gCoordArr.enum.foldl
    (fun pr mg => rapidTargetPoint TimeOn ISI PulseStart pr mg.1 mg.2) prot
  appendLoop prot END EndTime (Reps : Int)

/-- `buildPattern`, part_001 lines 536-636.  Its command-emission skeleton
is, statement for statement, that of `buildTarget` (the source duplicates
the loop body, lines 593-629), with `NumPoints` read from the pattern file
and the coordinates produced by `getPattern`; both enter through
`gCoordArr`. -/
def buildPattern (Baseline TimeOn NumPulses ISI Iterations EpisodePeriod Reps : Nat)
    (gCoordArr : List (Int × Int)) (Trig : Trigger) : List Cmd :=
  let NumPoints := gCoordArr.length
  let ISI := coerceISI ISI TimeOn
  let EpisodePeriod :=
    if EpisodePeriod < m32 (Baseline + m32 (NumPulses * ISI)) then
      m32 (Baseline + m32 (NumPulses * ISI))
    else EpisodePeriod
  let Baseline := msToCycles Baseline
  let TimeOn := msToCycles TimeOn
  let ISI := msToCycles ISI
  let EpisodePeriod := m32 (msToCycles EpisodePeriod * Iterations)
  let Time0 : Nat := 0
  let EpisodeStart := m32 (Time0 + TIME_OFFSET)
  let EndTime := m32 (EpisodePeriod * NumPoints)
  let prot := appendLoop [] START Time0 (Reps : Int)
  let prot := gCoordArr.enum.foldl
    (fun pr kg => targetEpisode Baseline TimeOn NumPulses ISI Iterations EpisodePeriod
      EpisodeStart Trig pr kg.1 kg.2) prot
  appendLoop prot END EndTime (Reps : Int)

/-- The `FORMAT` line specifier of scancmdr.h lines 208-214:
`"%c%c,%u,%i,%lld\n"` applied to one command. -/
def FORMAT (pLoop : Cmd) : String :=
  String.singleton pLoop.DSPCmd ++ String.singleton pLoop.ScanCmd ++ "," ++
    toString pLoop.Cycle ++ "," ++ toString pLoop.Channel ++ "," ++ toString pLoop.Value ++ "\n"

/-- `ProtToString`, part_001 lines 822-859: seed the output with the CLEAR
line `"C\n"` and `strcat` one `FORMAT`ted line per command in list order. -/
def ProtToString (protocol : List Cmd) : String :=
  protocol.foldl (fun StrProtocol pLoop => StrProtocol ++ FORMAT pLoop) "C\n"

/-- `struct Coord` of scancmdr.h (pixel space, C `int` fields). -/
structure Coord where
  X : Int
  Y : Int
deriving DecidableEq

/-- `rotateCoord`, part_001 lines 721-738.  The `double` trigonometry is
modelled exactly: `cosR` and `sinR` stand for `cos(RotAngle)` and
`sin(RotAngle)` as rational values.  Note the function returns the rounded
rotation of `pixelCoord - axisCenter` and does not add `axisCenter` back
(its caller at lines 201-203 does that itself). -/
def rotateCoord (pixelCoord axisCenter : Coord) (cosR sinR : ℚ) : Coord :=
  let normX : Int := pixelCoord.X - axisCenter.X
  let normY : Int := pixelCoord.Y - axisCenter.Y
  let rXX : ℚ := (normX : ℚ) * cosR - (normY : ℚ) * sinR
  let rYY : ℚ := (normX : ℚ) * sinR + (normY : ℚ) * cosR
  ⟨round rXX, round rYY⟩

/-- One parsed line of a calibration file (`SCANFORMAT`,
`<galvoX> <galvoY> <pixelX> <pixelY>`), `double` fields as rationals. -/
structure CalPoint where
  galvoX : ℚ
  galvoY : ℚ
  pixelX : ℚ
  pixelY : ℚ
deriving DecidableEq

/-- The ratio-collection loop of `calcScaling`, part_001 lines 674-687:
for every pair `i < j`, the X-axis ratio when the two GALVO X coordinates
differ, then the Y-axis ratio when the two galvo Y coordinates differ, in
loop order. -/
def pairScales : List CalPoint → List ℚ
  | [] => []
  | p :: rest =>
      (rest.flatMap fun q =>
        (if p.galvoX ≠ q.galvoX then [|p.galvoX - q.galvoX| / |p.pixelX - q.pixelX|] else []) ++
        (if p.galvoY ≠ q.galvoY then [|p.galvoY - q.galvoY| / |p.pixelY - q.pixelY|] else [])) ++
      pairScales rest

/-- `calcScaling`, part_001 lines 641-704, on the parsed calibration
points: seed the running value with `scaleArr[0]`, average every later
non-zero entry into it, round to integer.  The source's zero-padded tail
of `scaleArr` (entries `N..Nmax-1` of the calloc'd array) is skipped by
the non-zero test, so folding over the computed ratios alone is exact. -/
def calcScaling (pts : List CalPoint) : Int :=
  let scaleArr := pairScales pts
  let scalefactor := scaleArr.headD 0
  let scalefactor := scaleArr.tail.foldl (fun sf s => if s ≠ 0 then (sf + s) / 2 else sf) scalefactor
  round scalefactor

/-- Modelled from the spec: the ratio collection as §4.1 of the spec words
it — "for every unordered pair of calibration points with differing X
(resp. Y) PIXEL coordinates, the ratio `|Δgalvo|/|Δpixel|` on each axis" —
for comparison with `pairScales`, whose guard reads the galvo
coordinates. -/
def pairScalesSpec : List CalPoint → List ℚ
  | [] => []
  | p :: rest =>
      (rest.flatMap fun q =>
        (if p.pixelX ≠ q.pixelX then [|p.galvoX - q.galvoX| / |p.pixelX - q.pixelX|] else []) ++
        (if p.pixelY ≠ q.pixelY then [|p.galvoY - q.galvoY| / |p.pixelY - q.pixelY|] else [])) ++
      pairScalesSpec rest

/-- Modelled from the spec: `calcScaling` as the spec describes it, i.e.
the same seeded running average applied to the pixel-guarded ratio list
`pairScalesSpec`. -/
def calcScalingSpec (pts : List CalPoint) : Int :=
  let scaleArr := pairScalesSpec pts
  let scalefactor := scaleArr.headD 0
  let scalefactor := scaleArr.tail.foldl (fun sf s => if s ≠ 0 then (sf + s) / 2 else sf) scalefactor
  round scalefactor

/-- The coordinate mapping of `getPattern`, part_001 lines 778-779, for one
pattern-file entry `(xcoord, ycoord)`:
`X = StartPos.X + (xcoord-1)*Spacing.X`, `Y = StartPos.Y - (ycoord-1)*Spacing.Y`. -/
def getPatternCoord (StartPos Spacing : Coord) (xcoord ycoord : Int) : Coord :=
  ⟨StartPos.X + (xcoord - 1) * Spacing.X, StartPos.Y - (ycoord - 1) * Spacing.Y⟩

/-- `getPattern`, part_001 lines 763-784, on the already parsed entry list:
every entry is mapped through `getPatternCoord`. -/
def getPattern (StartPos Spacing : Coord) (entries : List (Int × Int)) : List Coord :=
  entries.map fun e => getPatternCoord StartPos Spacing e.1 e.2

/-- Number of loop Start commands in a protocol. -/
def countStarts (p : List Cmd) : Nat := (p.filter fun c => c.ScanCmd = 'S').length

/-- Number of loop End commands in a protocol. -/
def countEnds (p : List Cmd) : Nat := (p.filter fun c => c.ScanCmd = 'E').length

/-- Scan a protocol tracking the loop nesting depth: `some e` is the final
depth, `none` means some End command closed a loop no earlier Start had
opened. -/
def scanLoops : List Cmd → Nat → Option Nat
  | [], d => some d
  | c :: rest, d =>
    if c.ScanCmd = 'S' then scanLoops rest (d + 1)
    else if c.ScanCmd = 'E' then
      match d with
      | 0 => none
      | e + 1 => scanLoops rest e
    else scanLoops rest d

/-- The protocol has as many loop Start as loop End commands and every
Start precedes its matching End (the depth scan from 0 ends at 0 and never
underflows). -/
def loopsMatched (p : List Cmd) : Prop :=
  countStarts p = countEnds p ∧ scanLoops p 0 = some 0

/- Helper lemmas. -/

theorem scanLoops_append (xs : List Cmd) :
    ∀ (ys : List Cmd) (d : Nat),
      scanLoops (xs ++ ys) d = (scanLoops xs d).bind fun e => scanLoops ys e := by
  induction xs with
  | nil => intro ys d; simp [scanLoops]
  | cons c rest ih =>
    intro ys d
    by_cases hS : c.ScanCmd = 'S'
    · simp [scanLoops, hS, ih]
    · by_cases hE : c.ScanCmd = 'E'
      · cases d with
        | zero => simp [scanLoops, hS, hE]
        | succ e => simp [scanLoops, hS, hE, ih]
      · simp [scanLoops, hS, hE, ih]

theorem counts_of_scanLoops (p : List Cmd) :
    ∀ (d e : Nat), scanLoops p d = some e → d + countStarts p = e + countEnds p := by
  induction p with
  | nil => intro d e h; simp [scanLoops] at h; simp [countStarts, countEnds, h]
  | cons c rest ih =>
    intro d e h
    by_cases hS : c.ScanCmd = 'S'
    · simp [scanLoops, hS] at h
      have := ih _ _ h
      have hne : ¬ (c.ScanCmd = 'E') := by rw [hS]; decide
      simp [countStarts, countEnds, hS, hne, List.filter] at *
      omega
    · by_cases hE : c.ScanCmd = 'E'
      · cases d with
        | zero => simp [scanLoops, hS, hE] at h
        | succ d' =>
          simp [scanLoops, hS, hE] at h
          have := ih _ _ h
          simp [countStarts, countEnds, hS, hE, List.filter] at *
          omega
      · simp [scanLoops, hS, hE] at h
        have := ih _ _ h
        simp [countStarts, countEnds, hS, hE, List.filter] at *
        omega

theorem loopsMatched_of_scan (p : List Cmd) (h : scanLoops p 0 = some 0) : loopsMatched p := by
  have := counts_of_scanLoops p 0 0 h
  exact ⟨by omega, h⟩

theorem scanLoops_flatMap {α : Type} (f : α → List Cmd)
    (hf : ∀ a d, scanLoops (f a) d = some d) :
    ∀ (l : List α) (d : Nat), scanLoops (l.flatMap f) d = some d := by
  intro l
  induction l with
  | nil => intro d; simp [scanLoops]
  | cons a rest ih => intro d; simp [List.flatMap_cons, scanLoops_append, hf, ih]

theorem targetEpisode_append_form
    (Baseline TimeOn NumPulses ISI Iterations EpisodePeriod EpisodeStart : Nat)
    (Trig : Trigger) (pr : List Cmd) (k : Nat) (g : Int × Int) :
    targetEpisode Baseline TimeOn NumPulses ISI Iterations EpisodePeriod EpisodeStart Trig pr k g =
      pr ++ targetEpisode Baseline TimeOn NumPulses ISI Iterations EpisodePeriod EpisodeStart
        Trig [] k g := by
  unfold targetEpisode
  cases Trig <;> by_cases h1 : 1 < Iterations <;> by_cases h2 : NumPulses = 1 <;>
    simp [h1, h2, appendMove, appendLoop, appendTrigOut, appendTrigIn, RISING, START, END]

theorem targetEpisode_scan
    (Baseline TimeOn NumPulses ISI Iterations EpisodePeriod EpisodeStart : Nat)
    (Trig : Trigger) (k : Nat) (g : Int × Int) (d : Nat) :
    scanLoops (targetEpisode Baseline TimeOn NumPulses ISI Iterations EpisodePeriod EpisodeStart
      Trig [] k g) d = some d := by
  unfold targetEpisode
  cases Trig <;> by_cases h1 : 1 < Iterations <;> by_cases h2 : NumPulses = 1 <;>
    simp [h1, h2, appendMove, appendLoop, appendTrigOut, appendTrigIn, RISING, START, END,
      scanLoops]

theorem foldl_targetEpisode_eq
    (Baseline TimeOn NumPulses ISI Iterations EpisodePeriod EpisodeStart : Nat)
    (Trig : Trigger) (l : List (Nat × (Int × Int))) (init : List Cmd) :
    l.foldl (fun pr kg => targetEpisode Baseline TimeOn NumPulses ISI Iterations EpisodePeriod
        EpisodeStart Trig pr kg.1 kg.2) init =
      init ++ l.flatMap (fun kg => targetEpisode Baseline TimeOn NumPulses ISI Iterations
        EpisodePeriod EpisodeStart Trig [] kg.1 kg.2) := by
  induction l generalizing init with
  | nil => simp
  | cons a rest ih =>
    simp only [List.foldl_cons, List.flatMap_cons, ih]
    rw [targetEpisode_append_form, List.append_assoc]

theorem rapidTargetPoint_append_form (TimeOn ISI PulseStart : Nat) (pr : List Cmd) (m : Nat)
    (g : Int × Int) :
    rapidTargetPoint TimeOn ISI PulseStart pr m g =
      pr ++ rapidTargetPoint TimeOn ISI PulseStart [] m g := by
  unfold rapidTargetPoint
  simp [appendMove, appendTrigOut]

theorem rapidTargetPoint_scan (TimeOn ISI PulseStart : Nat) (m : Nat) (g : Int × Int) (d : Nat) :
    scanLoops (rapidTargetPoint TimeOn ISI PulseStart [] m g) d = some d := by
  unfold rapidTargetPoint
  simp [appendMove, appendTrigOut, scanLoops]

theorem foldl_rapidTargetPoint_eq (TimeOn ISI PulseStart : Nat)
    (l : List (Nat × (Int × Int))) (init : List Cmd) :
    l.foldl (fun pr mg => rapidTargetPoint TimeOn ISI PulseStart pr mg.1 mg.2) init =
      init ++ l.flatMap (fun mg => rapidTargetPoint TimeOn ISI PulseStart [] mg.1 mg.2) := by
  induction l generalizing init with
  | nil => simp
  | cons a rest ih =>
    simp only [List.foldl_cons, List.flatMap_cons, ih]
    rw [rapidTargetPoint_append_form, List.append_assoc]

theorem protToString_foldl (l : List Cmd) :
    ∀ s : String, l.foldl (fun a c => a ++ FORMAT c) s = s ++ String.join (l.map FORMAT) := by
  induction l with
  | nil =>
    intro s
    apply String.ext
    simp [String.join_eq]
  | cons c rest ih =>
    intro s
    rw [List.foldl_cons, ih, List.map_cons]
    apply String.ext
    simp [String.join_eq]

/- Claim theorems. -/

/-- Claim C1, counterexample: with `NumPulses = 1` and trigger mode None
(input `Baseline = TimeOn = ISI = 1`, `EpisodePeriod = 10`, `Reps = 1`,
galvo position `(5, 6)`), the first emitted command of `buildSpot` is a
move (scan char V), not the outer loop start the claim places first
(part_001 lines 97-101 append the two moves before the loop start). -/
theorem buildSpot_first_command_is_move :
    ((buildSpot 1 1 1 1 10 1 5 6 Trigger.T_NONE).head?).map Cmd.ScanCmd = some 'V' ∧
    ((buildSpot 1 1 1 1 10 1 5 6 Trigger.T_NONE).head?).map Cmd.ScanCmd ≠ some 'S' := by
  decide

/-- Claim C1, amended: for every input with `NumPulses = 1` and trigger
mode None, `buildSpot` emits exactly six commands in the order move X,
move Y, outer loop start, pulse-on, pulse-off, outer loop end, with the
pulse-on cycle equal to the baseline converted to cycles and the pulse-off
cycle equal to baseline plus `TimeOn` converted to cycles. -/
theorem buildSpot_single_pulse_sequence (Baseline TimeOn ISI EpisodePeriod Reps : Nat)
    (gX gY : Int) :
    (buildSpot Baseline TimeOn 1 ISI EpisodePeriod Reps gX gY Trigger.T_NONE).length = 6 ∧
    (buildSpot Baseline TimeOn 1 ISI EpisodePeriod Reps gX gY Trigger.T_NONE)[0]? =
      some ⟨'A', 'V', 0, X, gX⟩ ∧
    (buildSpot Baseline TimeOn 1 ISI EpisodePeriod Reps gX gY Trigger.T_NONE)[1]? =
      some ⟨'A', 'V', 0, Y, gY⟩ ∧
    (buildSpot Baseline TimeOn 1 ISI EpisodePeriod Reps gX gY Trigger.T_NONE)[2]? =
      some ⟨'A', 'S', 0, LOOP, (Reps : Int)⟩ ∧
    (buildSpot Baseline TimeOn 1 ISI EpisodePeriod Reps gX gY Trigger.T_NONE)[3]? =
      some ⟨'A', 'V', msToCycles Baseline, TRIG, TL_DH⟩ ∧
    (buildSpot Baseline TimeOn 1 ISI EpisodePeriod Reps gX gY Trigger.T_NONE)[4]? =
      some ⟨'A', 'V', msToCycles (Baseline + TimeOn), TRIG, TL_DL⟩ ∧
    ((buildSpot Baseline TimeOn 1 ISI EpisodePeriod Reps gX gY Trigger.T_NONE)[5]?).map
      (fun c => (c.DSPCmd, c.ScanCmd, c.Channel, c.Value)) =
      some ('A', 'E', LOOP, (Reps : Int)) := by
  unfold buildSpot
  simp [appendMove, appendLoop, appendTrigOut, START, END, msToCycles, m32, U32, CYCLES_PER_MS]
  omega

/-- Claim C2: `ProtToString` renders every protocol as the leading clear
line `C` followed by exactly one `FORMAT`ted line per command in append
order, with no execute command appended; in particular the one-move
protocol at channel 4, cycle 10, value 5000 renders to exactly the two
lines `C` and `AV,10,4,5000`. -/
theorem protToString_clear_then_lines :
    (∀ protocol : List Cmd,
      ProtToString protocol = "C\n" ++ String.join (protocol.map FORMAT)) ∧
    ProtToString [⟨'A', 'V', 10, 4, 5000⟩] = "C\nAV,10,4,5000\n" := by
  constructor
  · intro protocol
    exact protToString_foldl protocol "C\n"
  · decide

/-- Claim C3, failing input: `buildSpot` with `Baseline = 0`, `TimeOn = 1`,
`NumPulses = 2`, `ISI = 1`, `EpisodePeriod = 10`, `Reps = 1`, trigger None.
The inner pulse-train loop starts at cycle 0 with `n = 2` repetitions and
per-iteration duration `dt = ISI = 100` cycles, yet its End command is
emitted at cycle 100 (part_001 line 125, `PulseStart + ISI`), strictly
below the `startCycle + n * dt = 200` the loop timing law of the header
documentation (scancmdr.h, Important Notes) requires. -/
theorem buildSpot_pulse_loop_end_breaks_loop_law :
    (buildSpot 0 1 2 1 10 1 0 0 Trigger.T_NONE)[3]? = some ⟨'A', 'S', 0, LOOP, 2⟩ ∧
    (buildSpot 0 1 2 1 10 1 0 0 Trigger.T_NONE)[6]? = some ⟨'A', 'E', 100, LOOP, 2⟩ ∧
    100 < 0 + 2 * 100 := by
  decide

/-- Claim C4, failing input: `buildSpot` with trigger mode TriggerIn
(`Baseline = 400`, `TimeOn = 200`, `NumPulses = 1`, `ISI = 400`,
`EpisodePeriod = 2000`, `Reps = 1`) emits its trigger-in wait — the first
trigger-bearing command of the protocol — at cycle 0 (part_001 line 107,
`appendTrigIn(..., Time0, RISING)` with `Time0 = 0`), strictly below
`TIME_OFFSET`, although the header documentation (scancmdr.h, Important
Notes) records that triggering within cycle zero does not work. -/
theorem buildSpot_trigger_in_at_cycle_zero :
    (buildSpot 400 200 1 400 2000 1 0 0 Trigger.T_IN)[3]? = some ⟨'A', 'U', 0, TRIG, 0⟩ ∧
    0 < TIME_OFFSET := by
  decide

set_option maxHeartbeats 2000000

/-- Claim C5: every generator, for every combination of input parameters,
emits a protocol whose loop Start and End commands are equal in number and
properly matched (every Start precedes its matching End; the nesting-depth
scan never underflows and ends at depth 0). -/
theorem generators_emit_matched_loops :
    (∀ (Baseline TimeOn NumPulses ISI EpisodePeriod Reps : Nat) (gX gY : Int) (Trig : Trigger),
      loopsMatched (buildSpot Baseline TimeOn NumPulses ISI EpisodePeriod Reps gX gY Trig)) ∧
    (∀ (Baseline TimeOn NumPulses ISI Iterations EpisodePeriod Reps : Nat)
      (DimsX DimsY gStartX gStartY gSpacingX gSpacingY gDeltaX1 gDeltaX2 gDeltaY1 gDeltaY2 : Int)
      (rotZero : Bool) (Trig : Trigger),
      loopsMatched (buildGrid Baseline TimeOn NumPulses ISI Iterations EpisodePeriod Reps
        DimsX DimsY gStartX gStartY gSpacingX gSpacingY gDeltaX1 gDeltaX2 gDeltaY1 gDeltaY2
        rotZero Trig)) ∧
    (∀ (Baseline TimeOn NumPulses ISI Iterations EpisodePeriod Reps : Nat)
      (gCoordArr : List (Int × Int)) (Trig : Trigger),
      loopsMatched (buildTarget Baseline TimeOn NumPulses ISI Iterations EpisodePeriod Reps
        gCoordArr Trig)) ∧
    (∀ (Baseline TimeOn ISI EpisodePeriod Reps : Nat)
      (DimsX DimsY gStartX gStartY gSpacingX gSpacingY : Int) (Trig : Trigger),
      loopsMatched (buildRapidGrid Baseline TimeOn ISI EpisodePeriod Reps DimsX DimsY
        gStartX gStartY gSpacingX gSpacingY Trig)) ∧
    (∀ (Baseline TimeOn ISI EpisodePeriod Reps : Nat) (gCoordArr : List (Int × Int))
      (Trig : Trigger),
      loopsMatched (buildRapidTarget Baseline TimeOn ISI EpisodePeriod Reps gCoordArr Trig)) ∧
    (∀ (Baseline TimeOn NumPulses ISI Iterations EpisodePeriod Reps : Nat)
      (gCoordArr : List (Int × Int)) (Trig : Trigger),
      loopsMatched (buildPattern Baseline TimeOn NumPulses ISI Iterations EpisodePeriod Reps
        gCoordArr Trig)) := by
  refine ⟨?_, ?_, ?_, ?_, ?_, ?_⟩
  · intro B T NP ISI EP Reps gX gY Trig
    apply loopsMatched_of_scan
    unfold buildSpot
    cases Trig <;> by_cases h : NP = 1 <;>
      simp [h, appendMove, appendLoop, appendTrigOut, appendTrigIn, RISING, START, END, scanLoops]
  · intro B T NP ISI It EP Reps DX DY sx sy spx spy d1 d2 d3 d4 rz Trig
    apply loopsMatched_of_scan
    unfold buildGrid
    cases Trig <;> by_cases h1 : 1 < It <;> by_cases h2 : NP = 1 <;> cases rz <;>
      simp [h1, h2, appendMove, appendLoop, appendTrigOut, appendTrigIn, appendRel,
        RISING, START, END, scanLoops]
  · intro B T NP ISI It EP Reps l Trig
    apply loopsMatched_of_scan
    simp only [buildTarget]
    rw [foldl_targetEpisode_eq]
    simp [appendLoop, START, END, scanLoops_append, scanLoops,
      scanLoops_flatMap _ (fun (kg : Nat × (Int × Int)) d =>
        targetEpisode_scan _ _ _ _ _ _ _ _ kg.1 kg.2 d)]
  · intro B T ISI EP Reps DX DY sx sy spx spy Trig
    apply loopsMatched_of_scan
    unfold buildRapidGrid
    cases Trig <;>
      simp [appendMove, appendLoop, appendTrigOut, appendTrigIn, appendRel,
        RISING, START, END, scanLoops]
  · intro B T ISI EP Reps l Trig
    apply loopsMatched_of_scan
    simp only [buildRapidTarget]
    rw [foldl_rapidTargetPoint_eq]
    cases Trig <;>
      simp [appendLoop, appendTrigOut, appendTrigIn, RISING, START, END, scanLoops_append,
        scanLoops,
        scanLoops_flatMap _ (fun (mg : Nat × (Int × Int)) d =>
          rapidTargetPoint_scan _ _ _ mg.1 mg.2 d)]
  · intro B T NP ISI It EP Reps l Trig
    apply loopsMatched_of_scan
    simp only [buildPattern]
    rw [foldl_targetEpisode_eq]
    simp [appendLoop, START, END, scanLoops_append, scanLoops,
      scanLoops_flatMap _ (fun (kg : Nat × (Int × Int)) d =>
        targetEpisode_scan _ _ _ _ _ _ _ _ kg.1 kg.2 d)]

set_option maxHeartbeats 200000

/-- Claim C6, counterexample: at angle 0 (cosine 1, sine 0), `rotateCoord`
of the point (3, 4) about the center (1, 1) returns (2, 3) — the rotated
difference vector — and not the point itself, refuting the claimed
`center + R(angle) * (point - center)` form. -/
theorem rotateCoord_zero_angle_not_identity :
    rotateCoord ⟨3, 4⟩ ⟨1, 1⟩ 1 0 = (⟨2, 3⟩ : Coord) ∧
    rotateCoord ⟨3, 4⟩ ⟨1, 1⟩ 1 0 ≠ (⟨3, 4⟩ : Coord) := by
  constructor
  · simp [rotateCoord]
  · simp [rotateCoord]

/-- Claim C6, amended: `rotateCoord` returns the rotation of
`point - center` by the angle, each component rounded to the nearest
integer, WITHOUT adding the center back (its caller re-adds it); in
particular at angle 0 it returns `point - center`, not the point. -/
theorem rotateCoord_rotates_difference_vector (p c : Coord) (cosR sinR : ℚ) :
    rotateCoord p c cosR sinR =
      ⟨round (((p.X - c.X : Int) : ℚ) * cosR - ((p.Y - c.Y : Int) : ℚ) * sinR),
       round (((p.X - c.X : Int) : ℚ) * sinR + ((p.Y - c.Y : Int) : ℚ) * cosR)⟩ ∧
    rotateCoord p c 1 0 = ⟨p.X - c.X, p.Y - c.Y⟩ := by
  constructor
  · rfl
  · simp [rotateCoord]

/-- Claim C7, counterexample: on the two calibration points
(galvo (0,0), pixel (0,0)) and (galvo (0,100), pixel (50,50)), the code
returns 2 (its pair guard reads the GALVO coordinates, part_001 lines
677 and 681, so only the Y ratio 100/50 is collected), while the
algorithm the claim describes — guard on differing PIXEL coordinates —
would also collect the X ratio 0/50 = 0 as seed and return
round((0 + 2)/2) = 1. -/
theorem calcScaling_guard_reads_galvo_not_pixel :
    calcScaling [⟨0, 0, 0, 0⟩, ⟨0, 100, 50, 50⟩] = 2 ∧
    calcScalingSpec [⟨0, 0, 0, 0⟩, ⟨0, 100, 50, 50⟩] = 1 := by
  constructor
  · norm_num [calcScaling, pairScales]
  · norm_num [calcScalingSpec, pairScalesSpec]

/-- Claim C7, amended: `calcScaling` collects, for every pair of
calibration points whose GALVO coordinates differ on an axis, the ratio
of absolute galvo difference to absolute pixel difference on that axis,
folds them by the seeded running average skipping zero entries, and
rounds; on the three reference points it returns exactly 2, and it
returns 2 (not the pixel-guarded 1) on the distinguishing two-point
input. -/
theorem calcScaling_reference_points :
    calcScaling [⟨0, 0, 0, 0⟩, ⟨100, 0, 50, 0⟩, ⟨0, 100, 0, 50⟩] = 2 ∧
    calcScaling [⟨0, 0, 0, 0⟩, ⟨0, 100, 50, 50⟩] = 2 := by
  constructor
  · norm_num [calcScaling, pairScales]
  · norm_num [calcScaling, pairScales]

/-- Claim C8, counterexample: for `ISI = 42949673` and
`TimeOn = 42949672` milliseconds no coercion fires (`ISI ≥ TimeOn`), yet
the 32-bit conversion to cycles wraps: the coerced ISI converts to 4
cycles while the pulse width converts to 4294967200 cycles, so
`ISI_cycles < pulseWidth_cycles`. -/
theorem coerced_isi_cycles_wrap_below_pulse :
    msToCycles (coerceISI 42949673 42949672) < msToCycles 42949672 := by
  decide

/-- Claim C8, amended: whenever the coerced ISI converts to cycles without
32-bit overflow (`coerceISI ISI TimeOn * CYCLES_PER_MS < 2^32`), the
coerced ISI in cycles is at least the pulse width in cycles. -/
theorem coerced_isi_cycles_ge_pulse_cycles (ISI TimeOn : Nat)
    (h : coerceISI ISI TimeOn * CYCLES_PER_MS < U32) :
    msToCycles TimeOn ≤ msToCycles (coerceISI ISI TimeOn) := by
  by_cases hlt : ISI < TimeOn
  · simp only [coerceISI, hlt, if_true]
    exact Nat.le_refl _
  · simp only [coerceISI, hlt, if_true, if_false, msToCycles, m32, U32, CYCLES_PER_MS] at h ⊢
    have hb : TimeOn ≤ ISI := Nat.le_of_not_lt hlt
    have h2 : TimeOn * 100 < 4294967296 := by omega
    rw [Nat.mod_eq_of_lt h, Nat.mod_eq_of_lt h2]
    omega

/-- Witness for the amended claim C8 at `ISI = 4`, `TimeOn = 2`. -/
theorem coerced_isi_cycles_ge_pulse_cycles_witness :
    coerceISI 4 2 * CYCLES_PER_MS < U32 ∧ msToCycles 2 ≤ msToCycles (coerceISI 4 2) :=
  ⟨by decide, coerced_isi_cycles_ge_pulse_cycles 4 2 (by decide)⟩

/-- Claim C9, counterexample: for start position (0, 0), spacing (1, 1)
and the 1-based grid index (2, 2), `getPattern`'s coordinate mapping
yields (1, -1): the Y component is `startPos.Y - (gridY - 1) * spacing.Y`
(part_001 line 779 subtracts), not the `startPos.Y + (gridY - 1) *
spacing.Y` the claim states, which would give (1, 1). -/
theorem getPatternCoord_y_subtracts :
    getPatternCoord ⟨0, 0⟩ ⟨1, 1⟩ 2 2 = (⟨1, -1⟩ : Coord) ∧
    getPatternCoord ⟨0, 0⟩ ⟨1, 1⟩ 2 2 ≠ (⟨1, 1⟩ : Coord) := by
  decide

/-- Claim C9, amended: every pattern-file entry with 1-based grid index
`(gridX, gridY)` is mapped to pixel coordinate
`X = startPos.X + (gridX - 1) * spacing.X` and
`Y = startPos.Y - (gridY - 1) * spacing.Y` (plus on X, MINUS on Y). -/
theorem getPattern_maps_grid_indices (StartPos Spacing : Coord) (xcoord ycoord : Int)
    (entries : List (Int × Int)) :
    getPatternCoord StartPos Spacing xcoord ycoord =
      ⟨StartPos.X + (xcoord - 1) * Spacing.X, StartPos.Y - (ycoord - 1) * Spacing.Y⟩ ∧
    getPattern StartPos Spacing entries =
      entries.map (fun e => ⟨StartPos.X + (e.1 - 1) * Spacing.X,
        StartPos.Y - (e.2 - 1) * Spacing.Y⟩) := by
  exact ⟨rfl, rfl⟩

/-- Claim C10: `appendTrigIn` appends exactly one command on the trigger
channel 7 with value 0, whose scan char is U for edge 1 (rising), D for
edge 2 (falling) and U for every other edge value, and the call reports
success (status 0) in all three cases. -/
theorem appendTrigIn_appends_one_wait (pProtocol : List Cmd) (cycle : Nat) (edge : Int) :
    appendTrigIn pProtocol cycle edge =
      (pProtocol ++
        [⟨'A', if edge = 1 then 'U' else if edge = 2 then 'D' else 'U', cycle, TRIG, 0⟩], 0) ∧
    (appendTrigIn pProtocol cycle edge).1.length = pProtocol.length + 1 := by
  constructor
  · rfl
  · simp [appendTrigIn]

end Scancmdr

